import Mathlib

/-!
Verification development for the interactive task coordination core of the
AutoGLMMatched repository (droidrun/agent/interaction plus the
user-question part of droidrun/server/message_protocol.py).

The embedding is a shallow one: every Python method is translated into a
pure Lean function on explicit state values.  Python dicts become
association lists, Python object mutation becomes state passing, raised
exceptions become Except values, and observable side effects (callback
invocations, future resolutions, outbound messages) become explicit event
lists in the return value.  Wall-clock reads (time.time and
datetime.now) are passed in as parameters.  Python floats are carried
opaquely as rationals; no arithmetic is performed on them.
-/

namespace AutoGLM

/-- Python scalar values as they flow through the interaction core
(answers, defaults, message fields).  List and dict shaped payloads are
given dedicated typed fields where the code stores them. -/
inductive Value where
  | vnone
  | vbool (b : Bool)
  | vint (n : Int)
  | vfloat (x : ℚ)
  | vstr (s : String)
deriving DecidableEq, Repr

/-- Python truthiness (bool(v)) for the scalar values above. -/
def pyTruthy : Value → Bool
  | .vnone => false
  | .vbool b => b
  | .vint n => n != 0
  | .vfloat x => x != 0
  | .vstr s => s != ""

/-- str(v) for the scalar values, matching CPython output. -/
def pyStr : Value → String
  | .vnone => "None"
  | .vbool true => "True"
  | .vbool false => "False"
  | .vint n => toString n
  | .vfloat _ => "<float>"
  | .vstr s => s

/-- isinstance(v, (int, str)) with CPython semantics: bool is a subclass
of int, so booleans count as ints. -/
def pyIsIntOrStr : Value → Bool
  | .vint _ => true
  | .vbool _ => true
  | .vstr _ => true
  | _ => false

section Dict

variable {κ : Type} {α : Type} [DecidableEq κ]

/-- d.get(k): first binding of a key in an association list. -/
def mlookup (k : κ) : List (κ × α) → Option α
  | [] => none
  | p :: t => if p.1 = k then some p.2 else mlookup k t

/-- d[k] = v: replace the binding in place if the key is present
(Python dicts keep the original insertion position), append otherwise. -/
def mset (k : κ) (v : α) : List (κ × α) → List (κ × α)
  | [] => [(k, v)]
  | p :: t => if p.1 = k then (k, v) :: t else p :: mset k v t

/-- del d[k] (and also d.pop(k, None)): drop every binding of the key. -/
def merase (k : κ) (m : List (κ × α)) : List (κ × α) :=
  m.filter (fun p => p.1 != k)

/-- d.update(extra): set every binding of extra, in order. -/
def mupdate (m extra : List (κ × α)) : List (κ × α) :=
  extra.foldl (fun acc p => mset p.1 p.2 acc) m

@[simp] theorem mlookup_nil (k : κ) : mlookup (α := α) k [] = none := rfl

@[simp] theorem mlookup_cons (k : κ) (p : κ × α) (t : List (κ × α)) :
    mlookup k (p :: t) = if p.1 = k then some p.2 else mlookup k t := rfl

theorem mlookup_merase_self (k : κ) (m : List (κ × α)) :
    mlookup k (merase k m) = none := by
  induction m with
  | nil => rfl
  | cons p t ih =>
    by_cases h : p.1 = k
    · simpa [merase, List.filter_cons, h] using ih
    · simpa [merase, List.filter_cons, h] using ih

theorem mlookup_eq_none_iff (k : κ) (m : List (κ × α)) :
    mlookup k m = none ↔ ∀ p ∈ m, p.1 ≠ k := by
  induction m with
  | nil => simp
  | cons p t ih =>
    by_cases h : p.1 = k
    · simp [h]
    · simp [h, ih]

theorem mlookup_mem {k : κ} {m : List (κ × α)} {v : α}
    (h : mlookup k m = some v) : (k, v) ∈ m := by
  induction m with
  | nil => simp at h
  | cons p t ih =>
    by_cases hk : p.1 = k
    · simp only [mlookup_cons, hk, if_pos] at h
      cases h
      have hp : (k, p.2) = p := by
        cases p
        simp_all
      rw [hp]
      exact List.mem_cons_self p t
    · simp only [mlookup_cons, hk, if_neg, not_false_iff] at h
      exact List.mem_cons_of_mem _ (ih h)

theorem mem_keys_of_mlookup_some {k : κ} {m : List (κ × α)} {v : α}
    (h : mlookup k m = some v) : k ∈ m.map Prod.fst := by
  exact List.mem_map.2 ⟨(k, v), mlookup_mem h, rfl⟩

theorem mlookup_isSome_iff (k : κ) (m : List (κ × α)) :
    (mlookup k m).isSome ↔ ∃ p ∈ m, p.1 = k := by
  induction m with
  | nil => simp
  | cons p t ih =>
    by_cases h : p.1 = k
    · simp [h]
    · simp [h, ih]

theorem mlookup_filter_eq_none {k : κ} {m : List (κ × α)}
    {q : κ × α → Bool} (huniform : ∀ p : κ × α, p.1 = k → q p = false) :
    mlookup k (m.filter q) = none := by
  induction m with
  | nil => rfl
  | cons p t ih =>
    by_cases hk : p.1 = k
    · have : q p = false := huniform p hk
      simpa [List.filter_cons, this] using ih
    · cases hqp : q p with
      | false => simpa [List.filter_cons, hqp] using ih
      | true => simpa [List.filter_cons, hqp, hk] using ih

theorem mlookup_mem_of_filter {k : κ} {m : List (κ × α)}
    {q : κ × α → Bool} {v : α} (h : mlookup k (m.filter q) = some v) :
    (k, v) ∈ m ∧ q (k, v) = true := by
  have hmem := mlookup_mem h
  have := List.mem_filter.1 hmem
  exact this

end Dict

/-- Substring containment on character lists (Python: needle in hay). -/
def containsSub (h n : List Char) : Bool :=
  if n.isPrefixOf h then true
  else match h with
    | [] => false
    | _ :: t => containsSub t n

/-- Python: needle in hay, for strings. -/
def strContains (hay needle : String) : Bool :=
  containsSub hay.data needle.data

/-- s.lower(): ASCII lowercasing per character (the keywords used by the
code are ASCII or Chinese, and Chinese characters are unaffected). -/
def pyLower (cs : List Char) : List Char := cs.map Char.toLower

/-- s.strip(): drop whitespace from both ends. -/
def pyStrip (cs : List Char) : List Char :=
  ((cs.dropWhile Char.isWhitespace).reverse.dropWhile Char.isWhitespace).reverse

/-- str(answer).lower().strip() as a character list. -/
def normalizeAnswer (answer : Value) : List Char :=
  pyStrip (pyLower (pyStr answer).data)

/-- Resume strategies (task_state.py, class ResumeStrategy). -/
inductive ResumeStrategy where
  | replace_param
  | element_selection
  | confirm_cancel
  | parameter_fill
deriving DecidableEq, Repr

/-- String value of each strategy member. -/
def ResumeStrategy.value : ResumeStrategy → String
  | .replace_param => "replace_param"
  | .element_selection => "element_select"
  | .confirm_cancel => "confirm_cancel"
  | .parameter_fill => "parameter_fill"

/-- resume_context.py, dataclass ResumeContext.  The captured callable
action_func is opaque to the core; its invocation is represented by the
ExecOutcome.invoked constructor of executeWithModifiedParams rather than
by storing a function. -/
structure ResumeContext where
  resume_id : String
  step_index : Nat
  action_name : String
  original_args : List Value := []
  original_kwargs : List (String × Value) := []
  strategy : ResumeStrategy := .replace_param
  created_at : ℚ := 0
  context_data : List (String × Value) := []
  modified_args : Option (List Value) := none
  modified_kwargs : Option (List (String × Value)) := none
deriving DecidableEq, Repr

/-- Cancellation keywords of ResumeContext._parse_confirmation, checked
first. -/
def negative_keywords : List String :=
  ["否", "no", "n", "取消", "false", "0", "停止", "不", "不同意"]

/-- Confirmation keywords of ResumeContext._parse_confirmation, checked
second. -/
def positive_keywords : List String :=
  ["是", "yes", "y", "确定", "确认", "ok", "okay", "true", "1", "继续", "同意"]

/-- ResumeContext._parse_confirmation: bools pass through; any other
answer is stringified, lowercased and stripped, then matched against the
negative keywords first and the positive keywords second, defaulting to
False. -/
def parseConfirmation (answer : Value) : Bool :=
  match answer with
  | .vbool b => b
  | _ =>
    let answer_str := normalizeAnswer answer
    if negative_keywords.any (fun kw => containsSub answer_str kw.data) then
      false
    else if positive_keywords.any (fun kw => containsSub answer_str kw.data) then
      true
    else
      false

/-- ResumeContext.apply_answer: strategy-dispatched merge of the answer
into a copy of the original arguments, followed by the additional_data
update; stores and returns the modified snapshots. -/
def applyAnswer (ctx : ResumeContext) (answer : Value)
    (additional_data : Option (List (String × Value)) := none) :
    ResumeContext :=
  let args := ctx.original_args
  let kwargs := ctx.original_kwargs
  let (args, kwargs) :=
    match ctx.strategy with
    | .replace_param =>
      if (mlookup "text" kwargs).isSome then
        (args, mset "text" answer kwargs)
      else if (mlookup "value" kwargs).isSome then
        (args, mset "value" answer kwargs)
      else if args.length > 0 then
        (args.set 0 answer, kwargs)
      else
        (args, kwargs)
    | .confirm_cancel =>
      (args, mset "__user_confirmed" (Value.vbool (parseConfirmation answer)) kwargs)
    | .parameter_fill =>
      match mlookup "param_name" ctx.context_data with
      | some pn =>
        if pyTruthy pn then (args, mset (pyStr pn) answer kwargs)
        else (args, mset "user_input" answer kwargs)
      | none => (args, mset "user_input" answer kwargs)
    | .element_selection =>
      if pyIsIntOrStr answer then
        (args, mset "selected_element" answer kwargs)
      else
        (args, kwargs)
  let kwargs :=
    match additional_data with
    | some extra => mupdate kwargs extra
    | none => kwargs
  { ctx with modified_args := some args, modified_kwargs := some kwargs }

/-- Observable outcome of ResumeContext.execute_with_modified_params.
precondError models the ValueError raised when apply_answer has not run;
userCancelled models the raised UserCancelledError; invoked models the
call of the captured action_func with the given arguments. -/
inductive ExecOutcome where
  | precondError (msg : String)
  | userCancelled (msg : String)
  | invoked (args : List Value) (kwargs : List (String × Value))
deriving DecidableEq, Repr

/-- ResumeContext.execute_with_modified_params: requires the modified
snapshots, rejects an unconfirmed confirm-or-cancel resolution with
UserCancelledError, strips the __user_confirmed marker, and otherwise
invokes the captured action with the modified arguments. -/
def executeWithModifiedParams (ctx : ResumeContext) : ExecOutcome :=
  match ctx.modified_args, ctx.modified_kwargs with
  | some margs, some mkwargs =>
    if ctx.strategy = .confirm_cancel then
      if pyTruthy ((mlookup "__user_confirmed" mkwargs).getD (Value.vbool false)) then
        ExecOutcome.invoked margs (merase "__user_confirmed" mkwargs)
      else
        ExecOutcome.userCancelled ("User cancelled action: " ++ ctx.action_name)
    else
      ExecOutcome.invoked margs mkwargs
  | _, _ =>
    ExecOutcome.precondError "Must call apply_answer() before executing"

/-- task_state.py, class TaskState. -/
inductive TaskState where
  | initialized
  | running
  | waiting_user
  | completed
  | failed
  | cancelled
deriving DecidableEq, Repr

/-- String value of each state member. -/
def TaskState.value : TaskState → String
  | .initialized => "initialized"
  | .running => "running"
  | .waiting_user => "waiting_user"
  | .completed => "completed"
  | .failed => "failed"
  | .cancelled => "cancelled"

/-- One entry of TaskExecutionContext.executed_actions. -/
structure ActionRecord where
  step : Nat
  action : String
  args : Option (List Value)
  kwargs : Option (List (String × Value))
  result : Value
  error : Option String
  timestamp : ℚ
deriving DecidableEq, Repr

/-- task_context.py, class TaskExecutionContext.  The resume_callback
callable is opaque; it is carried as an optional token and its behavior
is supplied to resumeWithAnswer as an interpretation function. -/
structure TaskExecutionContext where
  task_id : String
  goal : String
  task_type : Option String := none
  state : TaskState := .initialized
  created_at : ℚ := 0
  updated_at : ℚ := 0
  current_step : Nat := 0
  executed_actions : List ActionRecord := []
  -- source field name: variables (a reserved word in Lean)
  vars : List (String × Value) := []
  current_resume_context : Option ResumeContext := none
  pending_question_id : Option String := none
  resume_callback : Option Nat := none
  result : Value := .vnone
  error : Option String := none
deriving DecidableEq, Repr

/-- TaskExecutionContext.set_state: unconditional transition; records the
new state and refreshes updated_at (the reason is only logged). -/
def setState (t : TaskExecutionContext) (new_state : TaskState)
    (_reason : Option String) (now : ℚ) : TaskExecutionContext :=
  { t with state := new_state, updated_at := now }

/-- TaskExecutionContext.pause_for_user_input: a warning no-op when the
task already waits for input; otherwise stores the suspension data and
transitions to waiting_user. -/
def pauseForUserInput (t : TaskExecutionContext) (question_id : String)
    (resume_context : ResumeContext) (resume_callback : Option Nat)
    (reason : Option String) (now : ℚ) : TaskExecutionContext :=
  if t.state = TaskState.waiting_user then
    t
  else
    let t := { t with
      current_resume_context := some resume_context
      pending_question_id := some question_id
      resume_callback := resume_callback }
    setState t TaskState.waiting_user (some (reason.getD "User input required")) now

/-- Observable callback events of the task context methods. -/
inductive TCEvent where
  | callbackInvoked (cb : Nat)
deriving DecidableEq, Repr

/-- TaskExecutionContext.resume_with_answer: raises ValueError outside
waiting_user (before any mutation), applies the answer to the stored
suspension record, transitions back to running and invokes the resume
callback, capturing a callback exception as the task error.  cbRun
interprets the opaque callback tokens; a returned error is the raised
exception text. -/
def resumeWithAnswer (t : TaskExecutionContext) (answer : Value)
    (additional_data : Option (List (String × Value))) (now : ℚ)
    (cbRun : Nat → ResumeContext → Value → Except String Unit) :
    TaskExecutionContext × List TCEvent × Except String Unit :=
  if t.state ≠ TaskState.waiting_user then
    (t, [], Except.error ("Cannot resume task in state: " ++ t.state.value))
  else
    match t.current_resume_context with
    | none => (t, [], Except.error "No resume context available")
    | some rc =>
      let rc := applyAnswer rc answer additional_data
      let t := { t with current_resume_context := some rc }
      let t := setState t TaskState.running (some "Resumed with user answer") now
      match t.resume_callback with
      | none => (t, [], Except.ok ())
      | some cb =>
        match cbRun cb rc answer with
        | Except.ok () => (t, [TCEvent.callbackInvoked cb], Except.ok ())
        | Except.error e =>
          ({ t with error := some e }, [TCEvent.callbackInvoked cb], Except.ok ())

/-- TaskExecutionContext.record_action: appends an action record and
advances the step counter. -/
def recordAction (t : TaskExecutionContext) (action_name : String)
    (args : Option (List Value)) (kwargs : Option (List (String × Value)))
    (result : Value) (error : Option String) (now : ℚ) :
    TaskExecutionContext :=
  let rec_entry : ActionRecord :=
    { step := t.current_step
      action := action_name
      args := args
      kwargs := kwargs
      result := result
      error := error
      timestamp := now }
  { t with
    executed_actions := t.executed_actions ++ [rec_entry]
    current_step := t.current_step + 1 }

/-- TaskExecutionContext.set_variable. -/
def setVariable (t : TaskExecutionContext) (key : String) (v : Value) :
    TaskExecutionContext :=
  { t with vars := mset key v t.vars }

/-- TaskExecutionContext.get_variable. -/
def getVariable (t : TaskExecutionContext) (key : String)
    (default : Value := .vnone) : Value :=
  (mlookup key t.vars).getD default

/-- TaskExecutionContext.complete: unconditional terminal transition to
completed, storing the result. -/
def complete (t : TaskExecutionContext) (result : Value) (now : ℚ) :
    TaskExecutionContext :=
  let t := setState t TaskState.completed (some "Task completed successfully") now
  { t with result := result }

/-- TaskExecutionContext.fail: unconditional terminal transition to
failed, storing the error. -/
def fail (t : TaskExecutionContext) (error : String) (now : ℚ) :
    TaskExecutionContext :=
  let t := setState t TaskState.failed (some ("Task failed: " ++ error)) now
  { t with error := some error }

/-- TaskExecutionContext.cancel: unconditional terminal transition to
cancelled. -/
def cancel (t : TaskExecutionContext) (reason : Option String) (now : ℚ) :
    TaskExecutionContext :=
  setState t TaskState.cancelled (some (reason.getD "Task cancelled")) now

/-- State of an asyncio future: resolved and cancelled count as done. -/
inductive FutureState where
  | pending
  | resolved (v : Value)
  | cancelled
deriving DecidableEq, Repr

/-- Future.done(). -/
def FutureState.done : FutureState → Bool
  | .pending => false
  | _ => true

/-- timeout_manager.py, dataclass TimeoutTask.  In this subsystem the
callback is always InteractionManager._on_question_timeout applied to the
timeout id, so only the bookkeeping data is carried. -/
structure TimeoutEntry where
  timeout_id : String
  delay_seconds : ℚ
  created_at : ℚ
deriving DecidableEq, Repr

/-- TimeoutManager._timeouts. -/
abbrev TimeoutMgrState := List (String × TimeoutEntry)

/-- TimeoutManager.set_timeout: raises ValueError on an id collision,
otherwise stores the entry (and schedules the sleep task, which is not
part of the state). -/
def setTimeout (tm : TimeoutMgrState) (timeout_id : String)
    (delay_seconds : ℚ) (now : ℚ) : Except String TimeoutMgrState :=
  if (mlookup timeout_id tm).isSome then
    Except.error ("Timeout ID already exists: " ++ timeout_id)
  else
    Except.ok (mset timeout_id
      { timeout_id := timeout_id
        delay_seconds := delay_seconds
        created_at := now } tm)

/-- TimeoutManager.cancel_timeout: cancels the scheduled task and drops
the entry, reporting whether anything was cancelled. -/
def cancelTimeout (tm : TimeoutMgrState) (timeout_id : String) :
    TimeoutMgrState × Bool :=
  match mlookup timeout_id tm with
  | none => (tm, false)
  | some _ => (merase timeout_id tm, true)

/-- manager.py, dataclass PendingQuestion.  The two callbacks are opaque
callables whose presence is recorded; their invocations appear as events.
The single-resolution future attached to the question is carried as its
resolution state. -/
structure PendingQuestion where
  question_id : String
  task_id : String
  question_text : String
  question_type : String := "text"
  options : List Value := []
  default_value : Value := .vnone
  timeout_seconds : ℚ := 60
  created_at : ℚ := 0
  future : Option FutureState := none
  resume_context : Option ResumeContext := none
  on_answer_callback : Bool := false
  on_timeout_callback : Bool := false
deriving DecidableEq, Repr

/-- InteractionManager state: task registry, pending-question registry,
timeout manager, running flag and the optional websocket send callback
(presence only). -/
structure MgrState where
  tasks : List (String × TaskExecutionContext) := []
  pending_questions : List (String × PendingQuestion) := []
  timeout_manager : TimeoutMgrState := []
  running : Bool := true
  websocket_send_callback : Bool := false
deriving DecidableEq, Repr

/-- Observable side effects of the InteractionManager methods. -/
inductive MEvent where
  | answerCallbackInvoked (question_id : String)
  | timeoutCallbackInvoked (question_id : String)
  | futureResolved (question_id : String) (v : Value)
  | futureCancelled (question_id : String)
deriving DecidableEq, Repr

/-- InteractionManager.register_task. -/
def registerTask (s : MgrState) (task_context : TaskExecutionContext) :
    MgrState :=
  { s with tasks := mset task_context.task_id task_context s.tasks }

/-- InteractionManager.get_task. -/
def getTask (s : MgrState) (task_id : String) :
    Option TaskExecutionContext :=
  mlookup task_id s.tasks

/-- InteractionManager.provide_answer: unknown question ids give False
with no side effect; otherwise the pending timeout is cancelled, the
on-answer callback fires (exceptions contained), the future is resolved
with the raw answer when not yet done, and the record is discarded. -/
def provideAnswer (s : MgrState) (question_id : String) (answer : Value)
    (_additional_data : Option (List (String × Value)) := none) :
    MgrState × List MEvent × Bool :=
  match mlookup question_id s.pending_questions with
  | none => (s, [], false)
  | some question =>
    let tm := (cancelTimeout s.timeout_manager question_id).1
    let cb_events :=
      if question.on_answer_callback then
        [MEvent.answerCallbackInvoked question_id]
      else []
    let future_events :=
      match question.future with
      | some fs => if fs.done then [] else [MEvent.futureResolved question_id answer]
      | none => []
    let s := { s with
      timeout_manager := tm
      pending_questions := merase question_id s.pending_questions }
    (s, cb_events ++ future_events, true)

/-- InteractionManager._on_question_timeout: when the question is still
pending, the on-timeout callback fires (exceptions contained), the future
is resolved with the configured default value when not yet done, and the
record is discarded.  (The timeout entry itself is removed by the finally
block of TimeoutManager._run_timeout, outside this handler.) -/
def onQuestionTimeout (s : MgrState) (question_id : String) :
    MgrState × List MEvent :=
  match mlookup question_id s.pending_questions with
  | none => (s, [])
  | some question =>
    let answer := question.default_value
    let cb_events :=
      if question.on_timeout_callback then
        [MEvent.timeoutCallbackInvoked question_id]
      else []
    let future_events :=
      match question.future with
      | some fs => if fs.done then [] else [MEvent.futureResolved question_id answer]
      | none => []
    ({ s with pending_questions := merase question_id s.pending_questions },
     cb_events ++ future_events)

/-- InteractionManager.cancel_question: cancels the timeout, cancels (not
resolves) the future when not yet done, and discards the record. -/
def cancelQuestion (s : MgrState) (question_id : String) :
    MgrState × List MEvent × Bool :=
  match mlookup question_id s.pending_questions with
  | none => (s, [], false)
  | some question =>
    let tm := (cancelTimeout s.timeout_manager question_id).1
    let future_events :=
      match question.future with
      | some fs => if fs.done then [] else [MEvent.futureCancelled question_id]
      | none => []
    ({ s with
        timeout_manager := tm
        pending_questions := merase question_id s.pending_questions },
     future_events, true)

/-- The for loop of InteractionManager._cancel_task_questions over an
already-built id list. -/
def cancelQuestionList (s : MgrState) : List String → MgrState × List MEvent
  | [] => (s, [])
  | question_id :: rest =>
    let r1 := cancelQuestion s question_id
    let r2 := cancelQuestionList r1.1 rest
    (r2.1, r1.2.1 ++ r2.2)

/-- InteractionManager._cancel_task_questions: builds the list of the
task's question ids first, then cancels each. -/
def cancelTaskQuestions (s : MgrState) (task_id : String) :
    MgrState × List MEvent :=
  let question_ids :=
    (s.pending_questions.filter (fun p => p.2.task_id == task_id)).map Prod.fst
  cancelQuestionList s question_ids

/-- InteractionManager.unregister_task: cancels all of the task's pending
questions then removes the task from the registry. -/
def unregisterTask (s : MgrState) (task_id : String) :
    MgrState × List MEvent × Bool :=
  if (mlookup task_id s.tasks).isSome then
    let r := cancelTaskQuestions s task_id
    ({ r.1 with tasks := merase task_id r.1.tasks }, r.2, true)
  else
    (s, [], false)

/-- The data dict of a user_question message
(MessageProtocol.create_user_question); absent fields model absent dict
keys. -/
structure QuestionData where
  question_id : Option Value := none
  question_text : Option Value := none
  question_type : Option Value := none
  options : Option (List Value) := none
  default_value : Option Value := none
  timeout_seconds : Option Value := none
deriving DecidableEq, Repr

/-- The envelope of a user_question message as built by
MessageProtocol.create_message for this message type (no request_id and
no error are ever passed on this path). -/
structure QuestionMessage where
  version : String := "1.0"
  type : String
  timestamp : String
  status : String := "success"
  device_id : Option String := none
  data : Option QuestionData := none
deriving DecidableEq, Repr

/-- MessageProtocol.create_user_question: the four mandatory data fields,
plus options when truthy and default_value when not None, wrapped by
create_message.  nowIso stands for datetime.now().isoformat(). -/
def createUserQuestion (question_id question_text : String)
    (question_type : String := "text") (options : List Value := [])
    (default_value : Value := .vnone) (timeout_seconds : ℚ := 60)
    (device_id : Option String := none) (nowIso : String := "") :
    QuestionMessage :=
  { type := "user_question"
    timestamp := nowIso
    device_id := device_id
    data := some
      { question_id := some (.vstr question_id)
        question_text := some (.vstr question_text)
        question_type := some (.vstr question_type)
        timeout_seconds := some (.vfloat timeout_seconds)
        options := if options.isEmpty then none else some options
        default_value :=
          if default_value = .vnone then none else some default_value } }

/-- MessageProtocol.validate_user_question. -/
def validateUserQuestion (message : QuestionMessage) :
    Bool × Option String :=
  let data := message.data.getD {}
  if pyTruthy (data.question_id.getD .vnone) = false then
    (false, some "Missing question_id in data")
  else if pyTruthy (data.question_text.getD .vnone) = false then
    (false, some "Missing question_text in data")
  else
    let question_type := data.question_type.getD (.vstr "text")
    if question_type ≠ .vstr "text" ∧ question_type ≠ .vstr "choice" ∧
        question_type ≠ .vstr "confirm" then
      (false, some "Invalid question_type")
    else if question_type = .vstr "choice" ∧ (data.options.getD []).isEmpty then
      (false, some "Options required for choice question type")
    else
      (true, none)

/-- The data dict of a user_answer message. -/
structure AnswerData where
  question_id : Option Value := none
  answer : Option Value := none
  additional_data : Option (List (String × Value)) := none
deriving DecidableEq, Repr

/-- The envelope of a user_answer message, as far as
MessageProtocol.validate_user_answer inspects it. -/
structure AnswerEnvelope where
  data : Option AnswerData := none
deriving DecidableEq, Repr

/-- MessageProtocol.validate_user_answer: rejects a falsy question_id and
an absent or null answer. -/
def validateUserAnswer (message : AnswerEnvelope) : Bool × Option String :=
  let data := message.data.getD {}
  if pyTruthy (data.question_id.getD .vnone) = false then
    (false, some "Missing question_id in data")
  else if data.answer.getD .vnone = .vnone then
    (false, some "Missing answer in data")
  else
    (true, none)

/-- InteractionManager.ask_user_async.  question_id stands for the
generated fresh uuid-based id, now for time.time() and nowIso for the
message timestamp.  A missing task raises ValueError before any state
change; a timeout-id collision raises out of set_timeout after the
question record was stored.  The outbound message exists only when the
websocket send callback is set. -/
def askUserAsync (s : MgrState) (task_id question_text : String)
    (question_type : String := "text") (options : List Value := [])
    (default_value : Value := .vnone) (timeout_seconds : ℚ := 60)
    (resume_context : Option ResumeContext := none)
    (on_answer_callback : Bool := false) (on_timeout_callback : Bool := false)
    (question_id : String := "q-00000000") (now : ℚ := 0)
    (nowIso : String := "") :
    MgrState × Option QuestionMessage × Except String String :=
  match mlookup task_id s.tasks with
  | none => (s, none, Except.error ("Task not found: " ++ task_id))
  | some _ =>
    let question : PendingQuestion :=
      { question_id := question_id
        task_id := task_id
        question_text := question_text
        question_type := question_type
        options := options
        default_value := default_value
        timeout_seconds := timeout_seconds
        created_at := now
        future := some .pending
        resume_context := resume_context
        on_answer_callback := on_answer_callback
        on_timeout_callback := on_timeout_callback }
    let s := { s with
      pending_questions := mset question_id question s.pending_questions }
    match setTimeout s.timeout_manager question_id timeout_seconds now with
    | Except.error e => (s, none, Except.error e)
    | Except.ok tm =>
      let s := { s with timeout_manager := tm }
      let message :=
        if s.websocket_send_callback then
          some (createUserQuestion question_id question_text question_type
            options default_value timeout_seconds none nowIso)
        else
          none
      (s, message, Except.ok question_id)

/-- The per-question info dict stored by
InteractionWebSocketHandler.handle_question_message. -/
structure WSQuestionInfo where
  question_id : Value
  question_text : Option Value
  question_type : Value
  created_at : ℚ
deriving DecidableEq, Repr

/-- InteractionWebSocketHandler state: its own pending-question info map,
keyed by the raw question_id value of the inbound message. -/
structure WSState where
  pending_questions : List (Value × WSQuestionInfo) := []
deriving DecidableEq, Repr

/-- An inbound question message as read by handle_question_message
(flat dict; absent fields model absent keys). -/
structure WSQuestionMessage where
  question_id : Option Value := none
  question_text : Option Value := none
  question_type : Option Value := none
  options : Option (List Value) := none
  default_value : Option Value := none
  timeout_seconds : Option Value := none
deriving DecidableEq, Repr

/-- The flat user_question dict sent to the device by
handle_question_message. -/
structure WSOutboundQuestion where
  type : String := "user_question"
  question_id : Value
  question_text : Value
  question_type : Value
  options : List Value
  default_value : Value
  timeout_seconds : Value
deriving DecidableEq, Repr

/-- An inbound answer message as read by handle_answer_message. -/
structure WSAnswerMessage where
  question_id : Option Value := none
  answer : Option Value := none
  additional_data : Option (List (String × Value)) := none
deriving DecidableEq, Repr

/-- The status dict returned by the handler methods. -/
inductive WSResult where
  | success (question_id : Value)
  | error (msg : String)
deriving DecidableEq, Repr

/-- InteractionWebSocketHandler.handle_question_message: checks a truthy
question_id and a known question_type, stores the question info, then
sends the outbound user_question dict (question_text is forwarded even
when absent). -/
def handleQuestionMessage (ws : WSState) (message : WSQuestionMessage)
    (now : ℚ) : WSState × Option WSOutboundQuestion × WSResult :=
  let question_id := message.question_id.getD .vnone
  if pyTruthy question_id = false then
    (ws, none, WSResult.error "Missing question_id")
  else
    let question_type := message.question_type.getD (.vstr "text")
    if question_type ≠ .vstr "text" ∧ question_type ≠ .vstr "choice" ∧
        question_type ≠ .vstr "confirm" then
      (ws, none, WSResult.error "Invalid question_type")
    else
      let info : WSQuestionInfo :=
        { question_id := question_id
          question_text := message.question_text
          question_type := question_type
          created_at := now }
      let ws := { ws with
        pending_questions := mset question_id info ws.pending_questions }
      let outbound : WSOutboundQuestion :=
        { question_id := question_id
          question_text := message.question_text.getD .vnone
          question_type := question_type
          options := message.options.getD []
          default_value := message.default_value.getD .vnone
          timeout_seconds := message.timeout_seconds.getD (.vfloat 60) }
      (ws, some outbound, WSResult.success question_id)

/-- InteractionWebSocketHandler.handle_answer_message: checks a truthy
question_id and a non-null answer, then routes the answer to
InteractionManager.provide_answer (an unknown id in the local info map
only logs a warning).  The returned flag records whether the answer was
routed to provide_answer. -/
def handleAnswerMessage (ws : WSState) (mgr : MgrState)
    (message : WSAnswerMessage) :
    WSState × MgrState × List MEvent × Bool × WSResult :=
  let question_id := message.question_id.getD .vnone
  if pyTruthy question_id = false then
    (ws, mgr, [], false, WSResult.error "Missing question_id")
  else
    let answer := message.answer.getD .vnone
    if answer = .vnone then
      (ws, mgr, [], false, WSResult.error "Missing answer")
    else
      let routed :=
        match question_id with
        | .vstr qid => provideAnswer mgr qid answer message.additional_data
        -- a non-string id can never equal a generated string key, so the
        -- lookup inside provide_answer necessarily misses
        | _ => (mgr, [], false)
      if routed.2.2 then
        let ws := { ws with
          pending_questions := merase question_id ws.pending_questions }
        (ws, routed.1, routed.2.1, true, WSResult.success question_id)
      else
        (ws, routed.1, routed.2.1, true,
         WSResult.error "Question not found or already answered")

/-! ## Theorems -/

/-- Unfolding of parseConfirmation on a non-bool string answer. -/
theorem parseConfirmation_vstr (s : String) :
    parseConfirmation (Value.vstr s) =
      (if negative_keywords.any
          (fun kw => containsSub (normalizeAnswer (Value.vstr s)) kw.data) then
        false
      else if positive_keywords.any
          (fun kw => containsSub (normalizeAnswer (Value.vstr s)) kw.data) then
        true
      else
        false) := rfl

/-- Claim C2: outside waiting_user, resume_with_answer raises the
invalid-state ValueError and returns the task context unchanged (state,
suspension record and callback untouched), invoking no callback. -/
theorem claim2_resume_invalid_state (t : TaskExecutionContext)
    (answer : Value) (additional_data : Option (List (String × Value)))
    (now : ℚ) (cbRun : Nat → ResumeContext → Value → Except String Unit)
    (h : t.state ≠ TaskState.waiting_user) :
    resumeWithAnswer t answer additional_data now cbRun =
      (t, [], Except.error ("Cannot resume task in state: " ++ t.state.value)) := by
  simp [resumeWithAnswer, h]

/-- Claim C2 witness: a concrete running task context. -/
theorem claim2_resume_invalid_state_witness :
    resumeWithAnswer
        { task_id := "t1"
          goal := "g"
          state := TaskState.running }
        (Value.vstr "a") none 0 (fun _ _ _ => Except.ok ()) =
      ({ task_id := "t1"
         goal := "g"
         state := TaskState.running },
       [],
       Except.error ("Cannot resume task in state: " ++
         TaskState.running.value)) :=
  claim2_resume_invalid_state _ _ _ _ _ (by decide)

/-- Claim C3 counterexample: a task context in waiting_user is completed
directly by complete, so the transition waiting_user to completed takes
effect and is not rejected. -/
theorem claim3_counterexample_complete_from_waiting :
    ({ task_id := "t1"
       goal := "g"
       state := TaskState.waiting_user } : TaskExecutionContext).state =
        TaskState.waiting_user ∧
    (complete
        { task_id := "t1"
          goal := "g"
          state := TaskState.waiting_user }
        (Value.vstr "done") 1).state = TaskState.completed := by
  constructor
  · rfl
  · rfl

/-- Claim C3 amended: the task-context state setters are unconditional —
set_state, complete, fail and cancel perform their transition from any
current state without rejection; the only state-guarded operations are
pause_for_user_input, which is a no-op when already waiting_user, and
resume_with_answer, which fails outside waiting_user. -/
theorem claim3_transitions_unguarded (t : TaskExecutionContext)
    (new_state : TaskState) (reason : Option String) (now : ℚ)
    (result : Value) (err : String) (question_id : String)
    (rc : ResumeContext) (cb : Option Nat) (answer : Value)
    (additional_data : Option (List (String × Value)))
    (cbRun : Nat → ResumeContext → Value → Except String Unit) :
    (setState t new_state reason now).state = new_state ∧
    (complete t result now).state = TaskState.completed ∧
    (fail t err now).state = TaskState.failed ∧
    (cancel t reason now).state = TaskState.cancelled ∧
    (t.state = TaskState.waiting_user →
      pauseForUserInput t question_id rc cb reason now = t) ∧
    (t.state ≠ TaskState.waiting_user →
      (resumeWithAnswer t answer additional_data now cbRun).2.2 =
        Except.error ("Cannot resume task in state: " ++ t.state.value)) := by
  refine ⟨rfl, rfl, rfl, rfl, ?_, ?_⟩
  · intro h
    simp [pauseForUserInput, h]
  · intro h
    simp [resumeWithAnswer, h]

/-- Claim C3 amended witness: the unguarded transitions at a concrete
waiting task context, with both guarded branches exercised. -/
theorem claim3_transitions_unguarded_witness :
    (complete
        { task_id := "t2"
          goal := "g"
          state := TaskState.waiting_user }
        (Value.vstr "r") 2).state = TaskState.completed ∧
    pauseForUserInput
        { task_id := "t2"
          goal := "g"
          state := TaskState.waiting_user }
        "q1" { resume_id := "r1", step_index := 0, action_name := "tap" }
        none none 2 =
      { task_id := "t2"
        goal := "g"
        state := TaskState.waiting_user } := by
  have h := claim3_transitions_unguarded
    { task_id := "t2"
      goal := "g"
      state := TaskState.waiting_user }
    TaskState.running none 2 (Value.vstr "r") "e" "q1"
    { resume_id := "r1", step_index := 0, action_name := "tap" }
    none (Value.vstr "a") none (fun _ _ _ => Except.ok ())
  exact ⟨h.2.1, h.2.2.2.2.1 rfl⟩

/-- Claim C4 counterexample: the code parses "maybe" as a confirmation,
because the positive keyword list contains the single letter y, which is
a substring of maybe; the claim states that "maybe" parses to false. -/
theorem claim4_counterexample_maybe :
    parseConfirmation (Value.vstr "maybe") = true := by decide

/-- Claim C4 amended: confirm-or-cancel parsing of a string answer checks
the negative keywords before the positive ones (so an answer containing
any negative keyword parses to false even when it also contains a
positive keyword), then the positive keywords, and defaults to false when
no keyword at all occurs in the lowercased, stripped answer; bools pass
through unchanged.  In particular 不同意 parses to false and "yes" to
true, but "maybe" parses to true (it contains the positive keyword y);
a keyword-free answer such as "zzz" parses to false. -/
theorem claim4_parse_confirmation (s : String) (b : Bool) :
    (parseConfirmation (Value.vbool b) = b) ∧
    ((∃ kw ∈ negative_keywords,
        containsSub (normalizeAnswer (Value.vstr s)) kw.data = true) →
      parseConfirmation (Value.vstr s) = false) ∧
    ((∀ kw ∈ negative_keywords,
        containsSub (normalizeAnswer (Value.vstr s)) kw.data = false) →
     (∃ kw ∈ positive_keywords,
        containsSub (normalizeAnswer (Value.vstr s)) kw.data = true) →
      parseConfirmation (Value.vstr s) = true) ∧
    ((∀ kw ∈ negative_keywords,
        containsSub (normalizeAnswer (Value.vstr s)) kw.data = false) →
     (∀ kw ∈ positive_keywords,
        containsSub (normalizeAnswer (Value.vstr s)) kw.data = false) →
      parseConfirmation (Value.vstr s) = false) ∧
    parseConfirmation (Value.vstr "不同意") = false ∧
    parseConfirmation (Value.vstr "yes") = true ∧
    parseConfirmation (Value.vstr "maybe") = true ∧
    parseConfirmation (Value.vstr "zzz") = false := by
  refine ⟨rfl, ?_, ?_, ?_, by decide, by decide, by decide, by decide⟩
  · intro hneg
    rw [parseConfirmation_vstr]
    have : negative_keywords.any
        (fun kw => containsSub (normalizeAnswer (Value.vstr s)) kw.data) = true := by
      rw [List.any_eq_true]
      obtain ⟨kw, hkw, hc⟩ := hneg
      exact ⟨kw, hkw, hc⟩
    simp [this]
  · intro hneg hpos
    rw [parseConfirmation_vstr]
    have h1 : negative_keywords.any
        (fun kw => containsSub (normalizeAnswer (Value.vstr s)) kw.data) = false := by
      rw [List.any_eq_false]
      intro kw hkw
      simp [hneg kw hkw]
    have h2 : positive_keywords.any
        (fun kw => containsSub (normalizeAnswer (Value.vstr s)) kw.data) = true := by
      rw [List.any_eq_true]
      obtain ⟨kw, hkw, hc⟩ := hpos
      exact ⟨kw, hkw, hc⟩
    simp [h1, h2]
  · intro hneg hpos
    rw [parseConfirmation_vstr]
    have h1 : negative_keywords.any
        (fun kw => containsSub (normalizeAnswer (Value.vstr s)) kw.data) = false := by
      rw [List.any_eq_false]
      intro kw hkw
      simp [hneg kw hkw]
    have h2 : positive_keywords.any
        (fun kw => containsSub (normalizeAnswer (Value.vstr s)) kw.data) = false := by
      rw [List.any_eq_false]
      intro kw hkw
      simp [hpos kw hkw]
    simp [h1, h2]

/-- Claim C4 amended witness: the precedence branches exercised at the
concrete answers 不同意 (negative wins over the contained positive
keyword) and yes. -/
theorem claim4_parse_confirmation_witness :
    parseConfirmation (Value.vstr "不同意") = false ∧
    parseConfirmation (Value.vstr "yes") = true := by
  have h1 := (claim4_parse_confirmation "不同意" true).2.1
    (by refine ⟨"不", by decide, by decide⟩)
  have h2 := (claim4_parse_confirmation "yes" true).2.2.1
    (by decide) (by refine ⟨"yes", by decide, by decide⟩)
  exact ⟨h1, h2⟩

/-- Claim C5: execute_with_modified_params fails with the precondition
ValueError when apply_answer has not produced the modified snapshots, and
for the confirm-or-cancel strategy with a falsy resolved confirmation it
fails with the distinct UserCancelledError and never invokes the captured
action. -/
theorem claim5_execute_guards (ctx : ResumeContext) :
    ((ctx.modified_args = none ∨ ctx.modified_kwargs = none) →
      executeWithModifiedParams ctx =
        ExecOutcome.precondError "Must call apply_answer() before executing") ∧
    (∀ margs mkwargs,
      ctx.strategy = ResumeStrategy.confirm_cancel →
      ctx.modified_args = some margs →
      ctx.modified_kwargs = some mkwargs →
      pyTruthy ((mlookup "__user_confirmed" mkwargs).getD
        (Value.vbool false)) = false →
      executeWithModifiedParams ctx =
          ExecOutcome.userCancelled
            ("User cancelled action: " ++ ctx.action_name) ∧
        ∀ args kwargs,
          executeWithModifiedParams ctx ≠ ExecOutcome.invoked args kwargs) := by
  constructor
  · intro h
    rcases h with h | h <;>
      · unfold executeWithModifiedParams
        rcases ha : ctx.modified_args with _ | margs <;>
          rcases hk : ctx.modified_kwargs with _ | mkwargs <;>
            simp_all
  · intro margs mkwargs hstrat ha hk hconf
    have heq : executeWithModifiedParams ctx =
        ExecOutcome.userCancelled
          ("User cancelled action: " ++ ctx.action_name) := by
      unfold executeWithModifiedParams
      rw [ha, hk]
      simp [hstrat, hconf]
    exact ⟨heq, fun args kwargs => by simp [heq]⟩

/-- Claim C5 witness: a confirm-or-cancel context whose confirmation
resolved to false, and a context without applied answer. -/
theorem claim5_execute_guards_witness :
    executeWithModifiedParams
        { resume_id := "r1"
          step_index := 0
          action_name := "pay"
          strategy := ResumeStrategy.confirm_cancel
          modified_args := some []
          modified_kwargs := some [("__user_confirmed", Value.vbool false)] } =
      ExecOutcome.userCancelled ("User cancelled action: " ++ "pay") ∧
    executeWithModifiedParams
        { resume_id := "r2"
          step_index := 0
          action_name := "tap" } =
      ExecOutcome.precondError "Must call apply_answer() before executing" := by
  constructor
  · exact ((claim5_execute_guards
      { resume_id := "r1"
        step_index := 0
        action_name := "pay"
        strategy := ResumeStrategy.confirm_cancel
        modified_args := some []
        modified_kwargs := some [("__user_confirmed", Value.vbool false)] }).2
      [] [("__user_confirmed", Value.vbool false)]
      rfl rfl rfl (by decide)).1
  · exact (claim5_execute_guards
      { resume_id := "r2"
        step_index := 0
        action_name := "tap" }).1 (Or.inl rfl)

/-- Claim C8: with the replace-primary-parameter strategy and no extra
data, apply_answer overwrites the text keyword when present, else the
value keyword when present, else the first positional argument; on kwargs
containing text "old" with answer "new" the kwargs become text "new", and
on positional args ("old",) with no matching keyword the args become
("new",). -/
theorem claim8_apply_answer_replace_param (ctx : ResumeContext)
    (answer : Value) (hstrat : ctx.strategy = ResumeStrategy.replace_param) :
    (((mlookup "text" ctx.original_kwargs).isSome = true →
      applyAnswer ctx answer none =
        { ctx with
          modified_args := some ctx.original_args
          modified_kwargs := some (mset "text" answer ctx.original_kwargs) }) ∧
     (mlookup "text" ctx.original_kwargs = none →
      (mlookup "value" ctx.original_kwargs).isSome = true →
      applyAnswer ctx answer none =
        { ctx with
          modified_args := some ctx.original_args
          modified_kwargs := some (mset "value" answer ctx.original_kwargs) }) ∧
     (∀ a rest,
      mlookup "text" ctx.original_kwargs = none →
      mlookup "value" ctx.original_kwargs = none →
      ctx.original_args = a :: rest →
      applyAnswer ctx answer none =
        { ctx with
          modified_args := some (answer :: rest)
          modified_kwargs := some ctx.original_kwargs })) ∧
    applyAnswer
        { resume_id := "r1"
          step_index := 0
          action_name := "input_text"
          original_kwargs := [("text", Value.vstr "old")] }
        (Value.vstr "new") none =
      { resume_id := "r1"
        step_index := 0
        action_name := "input_text"
        original_kwargs := [("text", Value.vstr "old")]
        modified_args := some []
        modified_kwargs := some [("text", Value.vstr "new")] } ∧
    applyAnswer
        { resume_id := "r2"
          step_index := 0
          action_name := "input_text"
          original_args := [Value.vstr "old"] }
        (Value.vstr "new") none =
      { resume_id := "r2"
        step_index := 0
        action_name := "input_text"
        original_args := [Value.vstr "old"]
        modified_args := some [Value.vstr "new"]
        modified_kwargs := some [] } := by
  refine ⟨⟨?_, ?_, ?_⟩, by decide, by decide⟩
  · intro htext
    simp [applyAnswer, hstrat, htext]
  · intro htext hvalue
    simp [applyAnswer, hstrat, htext, hvalue]
  · intro a rest htext hvalue hargs
    simp [applyAnswer, hstrat, htext, hvalue, hargs]

/-- Claim C8 witness: the keyword branch at a concrete context. -/
theorem claim8_apply_answer_replace_param_witness :
    applyAnswer
        { resume_id := "r3"
          step_index := 1
          action_name := "input_text"
          original_kwargs := [("text", Value.vstr "abc")] }
        (Value.vstr "xyz") none =
      { resume_id := "r3"
        step_index := 1
        action_name := "input_text"
        original_kwargs := [("text", Value.vstr "abc")]
        modified_args := some []
        modified_kwargs := some [("text", Value.vstr "xyz")] } :=
  (claim8_apply_answer_replace_param
    { resume_id := "r3"
      step_index := 1
      action_name := "input_text"
      original_kwargs := [("text", Value.vstr "abc")] }
    (Value.vstr "xyz") rfl).1.1 (by decide)

/-- Claim C10: without extra data, apply_answer leaves the arguments
exactly equal to the originals when the replace-primary-parameter
strategy finds neither a text nor a value keyword and no positional
argument, and when the select-element strategy receives an answer that is
neither an int nor a str (bool counting as int, as in Python), so no
selected_element keyword is added. -/
theorem claim10_apply_answer_silent_discard (ctx : ResumeContext)
    (answer : Value) :
    (ctx.strategy = ResumeStrategy.replace_param →
     mlookup "text" ctx.original_kwargs = none →
     mlookup "value" ctx.original_kwargs = none →
     ctx.original_args = [] →
     applyAnswer ctx answer none =
       { ctx with
         modified_args := some ctx.original_args
         modified_kwargs := some ctx.original_kwargs }) ∧
    (ctx.strategy = ResumeStrategy.element_selection →
     pyIsIntOrStr answer = false →
     applyAnswer ctx answer none =
       { ctx with
         modified_args := some ctx.original_args
         modified_kwargs := some ctx.original_kwargs }) := by
  constructor
  · intro hstrat htext hvalue hargs
    simp [applyAnswer, hstrat, htext, hvalue, hargs]
  · intro hstrat hinst
    simp [applyAnswer, hstrat, hinst]

/-- Claim C10 witness: a replace-param context with no replaceable slot
and a select-element context with a None answer. -/
theorem claim10_apply_answer_silent_discard_witness :
    applyAnswer
        { resume_id := "r4"
          step_index := 0
          action_name := "noop"
          original_kwargs := [("other", Value.vint 3)] }
        (Value.vstr "ans") none =
      { resume_id := "r4"
        step_index := 0
        action_name := "noop"
        original_kwargs := [("other", Value.vint 3)]
        modified_args := some []
        modified_kwargs := some [("other", Value.vint 3)] } ∧
    applyAnswer
        { resume_id := "r5"
          step_index := 0
          action_name := "select"
          strategy := ResumeStrategy.element_selection }
        Value.vnone none =
      { resume_id := "r5"
        step_index := 0
        action_name := "select"
        strategy := ResumeStrategy.element_selection
        modified_args := some []
        modified_kwargs := some [] } := by
  constructor
  · exact (claim10_apply_answer_silent_discard
      { resume_id := "r4"
        step_index := 0
        action_name := "noop"
        original_kwargs := [("other", Value.vint 3)] }
      (Value.vstr "ans")).1 rfl (by decide) (by decide) rfl
  · exact (claim10_apply_answer_silent_discard
      { resume_id := "r5"
        step_index := 0
        action_name := "select"
        strategy := ResumeStrategy.element_selection }
      Value.vnone).2 rfl (by decide)

/-- provide_answer on an unknown question id is a pure no-op returning
False. -/
theorem provideAnswer_not_found {s : MgrState} {question_id : String}
    (answer : Value) (additional_data : Option (List (String × Value)))
    (h : mlookup question_id s.pending_questions = none) :
    provideAnswer s question_id answer additional_data = (s, [], false) := by
  simp [provideAnswer, h]

/-- After provide_answer, the question id is absent from the pending
map. -/
theorem provideAnswer_pending_after (s : MgrState) (question_id : String)
    (answer : Value) (additional_data : Option (List (String × Value))) :
    mlookup question_id
      (provideAnswer s question_id answer additional_data).1.pending_questions =
      none := by
  rcases hq : mlookup question_id s.pending_questions with _ | q
  · rw [provideAnswer_not_found answer additional_data hq]
    exact hq
  · simp only [provideAnswer, hq]
    exact mlookup_merase_self _ _

/-- Claim C1: provide_answer for an unknown question id (never existed,
already resolved, timed out or cancelled) returns False, changes nothing
and invokes no callback; consequently the second of two provide_answer
calls for the same question id always returns False with no callback
invocation and no further future resolution, so each future is resolved
at most once. -/
theorem claim1_provide_answer_at_most_once (s : MgrState)
    (question_id : String) (a a2 : Value)
    (d d2 : Option (List (String × Value))) :
    (mlookup question_id s.pending_questions = none →
      provideAnswer s question_id a d = (s, [], false)) ∧
    provideAnswer (provideAnswer s question_id a d).1 question_id a2 d2 =
      ((provideAnswer s question_id a d).1, [], false) := by
  refine ⟨fun h => provideAnswer_not_found a d h, ?_⟩
  exact provideAnswer_not_found a2 d2 (provideAnswer_pending_after s question_id a d)

/-- Claim C1 witness: two calls for the same id at a concrete manager
state holding that question, and an unknown-id call. -/
theorem claim1_provide_answer_at_most_once_witness :
    provideAnswer {} "q-missing" (Value.vstr "a") none =
      (({} : MgrState), [], false) ∧
    provideAnswer
        (provideAnswer
          { pending_questions :=
              [("q1",
                { question_id := "q1"
                  task_id := "t1"
                  question_text := "name?"
                  future := some FutureState.pending
                  on_answer_callback := true })] }
          "q1" (Value.vstr "a") none).1
        "q1" (Value.vstr "b") none =
      ((provideAnswer
          { pending_questions :=
              [("q1",
                { question_id := "q1"
                  task_id := "t1"
                  question_text := "name?"
                  future := some FutureState.pending
                  on_answer_callback := true })] }
          "q1" (Value.vstr "a") none).1, [], false) := by
  constructor
  · exact (claim1_provide_answer_at_most_once {} "q-missing"
      (Value.vstr "a") (Value.vstr "b") none none).1 rfl
  · exact (claim1_provide_answer_at_most_once
      { pending_questions :=
          [("q1",
            { question_id := "q1"
              task_id := "t1"
              question_text := "name?"
              future := some FutureState.pending
              on_answer_callback := true })] }
      "q1" (Value.vstr "a") (Value.vstr "b") none none).2

/-- Claim C6: when the timeout handler fires for a still-pending question
whose future is unresolved, it removes the question from the pending set,
resolves the future with the configured default value, invokes the
on-timeout callback exactly when one is set, and a later answer for that
id is treated as unknown (provide_answer returns False without effect). -/
theorem claim6_question_timeout (s : MgrState) (question_id : String)
    (q : PendingQuestion)
    (hq : mlookup question_id s.pending_questions = some q)
    (hf : q.future = some FutureState.pending) :
    mlookup question_id
      (onQuestionTimeout s question_id).1.pending_questions = none ∧
    MEvent.futureResolved question_id q.default_value ∈
      (onQuestionTimeout s question_id).2 ∧
    (MEvent.timeoutCallbackInvoked question_id ∈
        (onQuestionTimeout s question_id).2 ↔
      q.on_timeout_callback = true) ∧
    (∀ a d, provideAnswer (onQuestionTimeout s question_id).1
        question_id a d =
      ((onQuestionTimeout s question_id).1, [], false)) := by
  have heq : onQuestionTimeout s question_id =
      ({ s with pending_questions := merase question_id s.pending_questions },
       (if q.on_timeout_callback then
          [MEvent.timeoutCallbackInvoked question_id] else []) ++
         [MEvent.futureResolved question_id q.default_value]) := by
    simp [onQuestionTimeout, hq, hf, FutureState.done]
  refine ⟨?_, ?_, ?_, ?_⟩
  · rw [heq]
    exact mlookup_merase_self _ _
  · rw [heq]
    simp
  · rw [heq]
    cases q.on_timeout_callback <;> simp
  · intro a d
    apply provideAnswer_not_found
    rw [heq]
    exact mlookup_merase_self _ _

/-- Claim C6 witness: a concrete manager state with one pending question
carrying a default value and a timeout callback. -/
theorem claim6_question_timeout_witness :
    mlookup "q1"
      (onQuestionTimeout
        { pending_questions :=
            [("q1",
              { question_id := "q1"
                task_id := "t1"
                question_text := "ready?"
                default_value := Value.vstr "dflt"
                future := some FutureState.pending
                on_timeout_callback := true })] }
        "q1").1.pending_questions = none ∧
    MEvent.futureResolved "q1" (Value.vstr "dflt") ∈
      (onQuestionTimeout
        { pending_questions :=
            [("q1",
              { question_id := "q1"
                task_id := "t1"
                question_text := "ready?"
                default_value := Value.vstr "dflt"
                future := some FutureState.pending
                on_timeout_callback := true })] }
        "q1").2 := by
  have h := claim6_question_timeout
    { pending_questions :=
        [("q1",
          { question_id := "q1"
            task_id := "t1"
            question_text := "ready?"
            default_value := Value.vstr "dflt"
            future := some FutureState.pending
            on_timeout_callback := true })] }
    "q1"
    { question_id := "q1"
      task_id := "t1"
      question_text := "ready?"
      default_value := Value.vstr "dflt"
      future := some FutureState.pending
      on_timeout_callback := true }
    (by decide) rfl
  exact ⟨h.1, h.2.1⟩

/-- Erasing one key leaves lookups of other keys unchanged. -/
theorem mlookup_merase_ne {κ α : Type} [DecidableEq κ] {k j : κ}
    (m : List (κ × α)) (h : k ≠ j) :
    mlookup k (merase j m) = mlookup k m := by
  induction m with
  | nil => rfl
  | cons p t ih =>
    by_cases hp : p.1 = j
    · have hk : p.1 ≠ k := by
        rw [hp]
        exact fun e => h e.symm
      have hcond : (p.1 != j) = false := by simp [hp]
      rw [merase, List.filter_cons, hcond]
      show mlookup k (merase j t) = mlookup k (p :: t)
      rw [mlookup_cons, if_neg hk]
      exact ih
    · have hcond : (p.1 != j) = true := by simp [hp]
      rw [merase, List.filter_cons, hcond]
      show mlookup k (p :: merase j t) = mlookup k (p :: t)
      rw [mlookup_cons, mlookup_cons]
      by_cases hk : p.1 = k
      · rw [if_pos hk, if_pos hk]
      · rw [if_neg hk, if_neg hk]
        exact ih

/-- Erasing any key preserves an absent lookup. -/
theorem mlookup_merase_none {κ α : Type} [DecidableEq κ] {k : κ} (j : κ)
    {m : List (κ × α)} (h : mlookup k m = none) :
    mlookup k (merase j m) = none := by
  by_cases hkj : k = j
  · rw [hkj]
    exact mlookup_merase_self j m
  · rw [mlookup_merase_ne m hkj]
    exact h

/-- The state component of cancel_timeout always equals the erased map
(erasing an absent key is the identity). -/
theorem cancelTimeout_fst (tm : TimeoutMgrState) (timeout_id : String) :
    (cancelTimeout tm timeout_id).1 = merase timeout_id tm := by
  rcases h : mlookup timeout_id tm with _ | e
  · have : merase timeout_id tm = tm := by
      apply List.filter_eq_self.2
      intro p hp
      have := (mlookup_eq_none_iff timeout_id tm).1 h p hp
      simpa using this
    simp [cancelTimeout, h, this]
  · simp [cancelTimeout, h]

/-- cancel_question on an unknown id leaves the state unchanged. -/
theorem cancelQuestion_fst_not_found {s : MgrState} {question_id : String}
    (h : mlookup question_id s.pending_questions = none) :
    (cancelQuestion s question_id).1 = s := by
  simp [cancelQuestion, h]

/-- cancel_question on a known id erases the question and its timeout. -/
theorem cancelQuestion_fst_found {s : MgrState} {question_id : String}
    {q : PendingQuestion}
    (h : mlookup question_id s.pending_questions = some q) :
    (cancelQuestion s question_id).1 =
      { s with
        timeout_manager := merase question_id s.timeout_manager
        pending_questions := merase question_id s.pending_questions } := by
  simp [cancelQuestion, h, cancelTimeout_fst]

/-- The cancellation loop never touches the task registry. -/
theorem cancelQuestionList_fst_tasks (L : List String) :
    ∀ s : MgrState, (cancelQuestionList s L).1.tasks = s.tasks := by
  induction L with
  | nil => intro s; rfl
  | cons head rest ih =>
    intro s
    show (cancelQuestionList (cancelQuestion s head).1 rest).1.tasks = s.tasks
    rw [ih]
    rcases h : mlookup head s.pending_questions with _ | q
    · rw [cancelQuestion_fst_not_found h]
    · rw [cancelQuestion_fst_found h]

/-- The cancellation loop removes exactly the listed keys from the
pending-question map. -/
theorem cancelQuestionList_fst_pending (L : List String) :
    ∀ s : MgrState,
    (cancelQuestionList s L).1.pending_questions =
      s.pending_questions.filter (fun p => !(decide (p.1 ∈ L))) := by
  induction L with
  | nil =>
    intro s
    show s.pending_questions = _
    rw [List.filter_eq_self.2]
    intro p _
    simp
  | cons head rest ih =>
    intro s
    show (cancelQuestionList (cancelQuestion s head).1 rest).1.pending_questions = _
    rw [ih]
    rcases h : mlookup head s.pending_questions with _ | q
    · rw [cancelQuestion_fst_not_found h]
      apply List.filter_congr
      intro p hp
      have hne : p.1 ≠ head := (mlookup_eq_none_iff head _).1 h p hp
      simp [List.mem_cons, hne]
    · rw [cancelQuestion_fst_found h]
      show (merase head s.pending_questions).filter _ = _
      rw [merase, List.filter_filter]
      apply List.filter_congr
      intro p _
      by_cases hpq : p.1 = head
      · simp [hpq]
      · simp [hpq, List.mem_cons]

/-- The cancellation loop never adds timeout entries. -/
theorem cancelQuestionList_tm_none (L : List String) :
    ∀ (s : MgrState) (k : String),
    mlookup k s.timeout_manager = none →
    mlookup k (cancelQuestionList s L).1.timeout_manager = none := by
  induction L with
  | nil => intro s k h; exact h
  | cons head rest ih =>
    intro s k h
    show mlookup k
      (cancelQuestionList (cancelQuestion s head).1 rest).1.timeout_manager = none
    rcases hq : mlookup head s.pending_questions with _ | q
    · rw [cancelQuestion_fst_not_found hq]
      exact ih _ _ h
    · rw [cancelQuestion_fst_found hq]
      exact ih _ _ (mlookup_merase_none head h)

/-- Every listed question id that is still pending has its timeout entry
removed by the cancellation loop. -/
theorem cancelQuestionList_timeout_cancelled (L : List String) :
    ∀ (s : MgrState) (qid : String), qid ∈ L →
    (mlookup qid s.pending_questions).isSome = true →
    mlookup qid (cancelQuestionList s L).1.timeout_manager = none := by
  induction L with
  | nil =>
    intro s qid h
    simp at h
  | cons head rest ih =>
    intro s qid hmem hsome
    show mlookup qid
      (cancelQuestionList (cancelQuestion s head).1 rest).1.timeout_manager = none
    by_cases hq : head = qid
    · subst hq
      obtain ⟨q, hq'⟩ := Option.isSome_iff_exists.1 hsome
      rw [cancelQuestion_fst_found hq']
      exact cancelQuestionList_tm_none rest _ _ (mlookup_merase_self _ _)
    · have hmem' : qid ∈ rest := by
        rcases List.mem_cons.1 hmem with h | h
        · exact absurd h.symm hq
        · exact h
      rcases hq2 : mlookup head s.pending_questions with _ | q
      · rw [cancelQuestion_fst_not_found hq2]
        exact ih _ _ hmem' hsome
      · rw [cancelQuestion_fst_found hq2]
        apply ih _ _ hmem'
        show (mlookup qid (merase head s.pending_questions)).isSome = true
        rw [mlookup_merase_ne _ (fun e => hq e.symm)]
        exact hsome

/-- Claim C7: for a registered task, unregister_task returns True,
removes the task from the registry and cancels every pending question
owned by it — each such question disappears from the pending map and its
timeout entry is removed (no orphaned timers), and no pending question
owned by the task remains afterwards. -/
theorem claim7_unregister_task_cancels_questions (s : MgrState)
    (task_id : String) (h : (mlookup task_id s.tasks).isSome = true) :
    (unregisterTask s task_id).2.2 = true ∧
    mlookup task_id (unregisterTask s task_id).1.tasks = none ∧
    (∀ qid q, mlookup qid s.pending_questions = some q →
      q.task_id = task_id →
      mlookup qid (unregisterTask s task_id).1.pending_questions = none ∧
      mlookup qid (unregisterTask s task_id).1.timeout_manager = none) ∧
    (∀ qid q,
      mlookup qid (unregisterTask s task_id).1.pending_questions = some q →
      q.task_id ≠ task_id) := by
  have hu : unregisterTask s task_id =
      ({ (cancelTaskQuestions s task_id).1 with
          tasks := merase task_id (cancelTaskQuestions s task_id).1.tasks },
       (cancelTaskQuestions s task_id).2, true) := by
    simp [unregisterTask, h]
  have hct : cancelTaskQuestions s task_id =
      cancelQuestionList s
        ((s.pending_questions.filter
          (fun p => p.2.task_id == task_id)).map Prod.fst) := rfl
  have hqids : ∀ qid q, mlookup qid s.pending_questions = some q →
      q.task_id = task_id →
      qid ∈ (s.pending_questions.filter
        (fun p => p.2.task_id == task_id)).map Prod.fst := by
    intro qid q hql ht
    refine List.mem_map.2 ⟨(qid, q), ?_, rfl⟩
    refine List.mem_filter.2 ⟨mlookup_mem hql, ?_⟩
    simp [ht]
  refine ⟨?_, ?_, ?_, ?_⟩
  · rw [hu]
  · rw [hu]
    exact mlookup_merase_self _ _
  · intro qid q hql ht
    have hmem := hqids qid q hql ht
    constructor
    · rw [hu]
      show mlookup qid (cancelTaskQuestions s task_id).1.pending_questions = none
      rw [hct, cancelQuestionList_fst_pending]
      apply mlookup_filter_eq_none
      intro p hp
      simp [hp, hmem]
    · rw [hu]
      show mlookup qid (cancelTaskQuestions s task_id).1.timeout_manager = none
      rw [hct]
      apply cancelQuestionList_timeout_cancelled _ _ _ hmem
      rw [hql]
      rfl
  · intro qid q hql
    rw [hu] at hql
    have hql' : mlookup qid
        (cancelTaskQuestions s task_id).1.pending_questions = some q := hql
    rw [hct, cancelQuestionList_fst_pending] at hql'
    obtain ⟨hmem, hpred⟩ := mlookup_mem_of_filter hql'
    have hnot : qid ∉ (s.pending_questions.filter
        (fun p => p.2.task_id == task_id)).map Prod.fst := by
      simpa using hpred
    intro ht
    exact hnot (List.mem_map.2
      ⟨(qid, q), List.mem_filter.2 ⟨hmem, by simp [ht]⟩, rfl⟩)

/-- The concrete manager state of the claim C7 witness: one registered
task owning two pending questions, each with an armed timer. -/
def witnessMgrState : MgrState :=
  { tasks := [("t1", { task_id := "t1", goal := "demo" })]
    pending_questions :=
      [("q1",
        { question_id := "q1"
          task_id := "t1"
          question_text := "first?"
          future := some FutureState.pending }),
       ("q2",
        { question_id := "q2"
          task_id := "t1"
          question_text := "second?"
          future := some FutureState.pending })]
    timeout_manager :=
      [("q1", { timeout_id := "q1", delay_seconds := 60, created_at := 0 }),
       ("q2", { timeout_id := "q2", delay_seconds := 60, created_at := 0 })] }

/-- Claim C7 witness: unregistering the task removes it and cancels both
questions together with their timers. -/
theorem claim7_unregister_task_cancels_questions_witness :
    (unregisterTask witnessMgrState "t1").2.2 = true ∧
    mlookup "t1" (unregisterTask witnessMgrState "t1").1.tasks = none ∧
    mlookup "q1"
      (unregisterTask witnessMgrState "t1").1.pending_questions = none ∧
    mlookup "q1"
      (unregisterTask witnessMgrState "t1").1.timeout_manager = none ∧
    mlookup "q2"
      (unregisterTask witnessMgrState "t1").1.pending_questions = none ∧
    mlookup "q2"
      (unregisterTask witnessMgrState "t1").1.timeout_manager = none := by
  have h := claim7_unregister_task_cancels_questions witnessMgrState "t1"
    (by decide)
  have h1 := h.2.2.1 "q1"
    { question_id := "q1"
      task_id := "t1"
      question_text := "first?"
      future := some FutureState.pending }
    (by decide) rfl
  have h2 := h.2.2.1 "q2"
    { question_id := "q2"
      task_id := "t1"
      question_text := "second?"
      future := some FutureState.pending }
    (by decide) rfl
  exact ⟨h.1, h.2.1, h1.1, h1.2, h2.1, h2.2⟩

/-- Manager state of the claim C9 counterexample: one registered task
and an attached websocket send callback. -/
def c9Mgr : MgrState :=
  { tasks := [("t1", { task_id := "t1", goal := "demo" })]
    websocket_send_callback := true }

/-- Claim C9 counterexample: ask_user_async sends a user_question message
with an empty (falsy, hence missing per the validators) question_text and
reports success — the message is not rejected before being sent, even
though validate_user_question rejects exactly this message. -/
theorem claim9_counterexample_question_sent_unvalidated :
    (askUserAsync c9Mgr "t1" "" "text" [] Value.vnone 60 none false false
      "q-1" 0 "ts").2.1 =
      some (createUserQuestion "q-1" "" "text" [] Value.vnone 60 none "ts") ∧
    (askUserAsync c9Mgr "t1" "" "text" [] Value.vnone 60 none false false
      "q-1" 0 "ts").2.2 = Except.ok "q-1" ∧
    (validateUserQuestion
      (createUserQuestion "q-1" "" "text" [] Value.vnone 60 none "ts")).1 =
      false := by
  refine ⟨by decide, rfl, by decide⟩

/-- Claim C9 amended: answer messages missing question_id or carrying a
null answer are rejected by handle_answer_message before being routed to
provide_answer, and validate_user_answer rejects exactly those messages;
validate_user_question rejects question messages missing question_id or
question_text, but it is not invoked on the send path — ask_user_async
passes the message built by create_user_question to the websocket
callback unconditionally, so a question message with a missing (falsy)
question_text is sent unvalidated. -/
theorem claim9_answer_validated_question_not (ws : WSState)
    (mgr : MgrState) (amsg : WSAnswerMessage) (am : AnswerEnvelope)
    (qm : QuestionMessage) (task_id question_text question_type : String)
    (options : List Value) (default_value : Value)
    (timeout_seconds now : ℚ) (resume_context : Option ResumeContext)
    (oac otc : Bool) (question_id nowIso : String)
    (ctx : TaskExecutionContext) :
    (pyTruthy (amsg.question_id.getD .vnone) = false →
      handleAnswerMessage ws mgr amsg =
        (ws, mgr, [], false, WSResult.error "Missing question_id")) ∧
    (pyTruthy (amsg.question_id.getD .vnone) = true →
     amsg.answer.getD .vnone = .vnone →
      handleAnswerMessage ws mgr amsg =
        (ws, mgr, [], false, WSResult.error "Missing answer")) ∧
    (pyTruthy ((am.data.getD {}).question_id.getD .vnone) = false →
      (validateUserAnswer am).1 = false) ∧
    ((am.data.getD {}).answer.getD .vnone = .vnone →
      (validateUserAnswer am).1 = false) ∧
    (pyTruthy ((qm.data.getD {}).question_id.getD .vnone) = false →
      (validateUserQuestion qm).1 = false) ∧
    (pyTruthy ((qm.data.getD {}).question_text.getD .vnone) = false →
      (validateUserQuestion qm).1 = false) ∧
    (mlookup task_id mgr.tasks = some ctx →
     mgr.websocket_send_callback = true →
     mlookup question_id mgr.timeout_manager = none →
      (askUserAsync mgr task_id question_text question_type options
        default_value timeout_seconds resume_context oac otc question_id
        now nowIso).2.1 =
        some (createUserQuestion question_id question_text question_type
          options default_value timeout_seconds none nowIso)) := by
  refine ⟨?_, ?_, ?_, ?_, ?_, ?_, ?_⟩
  · intro h
    simp [handleAnswerMessage, h]
  · intro h1 h2
    simp [handleAnswerMessage, h1, h2]
  · intro h
    simp [validateUserAnswer, h]
  · intro h
    unfold validateUserAnswer
    by_cases h1 : pyTruthy ((am.data.getD {}).question_id.getD .vnone) = false
    · simp [h1]
    · simp [h1, h]
  · intro h
    simp [validateUserQuestion, h]
  · intro h
    unfold validateUserQuestion
    by_cases h1 : pyTruthy ((qm.data.getD {}).question_id.getD .vnone) = false
    · simp [h1]
    · simp [h1, h]
  · intro hl hws htm
    simp [askUserAsync, hl, setTimeout, htm, hws]

/-- Claim C9 amended witness: the rejection branches at concrete
messages, and the unvalidated send at a concrete manager state. -/
theorem claim9_answer_validated_question_not_witness :
    handleAnswerMessage {} {} {} =
      (({} : WSState), ({} : MgrState), [], false,
       WSResult.error "Missing question_id") ∧
    handleAnswerMessage {} {}
        { question_id := some (Value.vstr "q1") } =
      (({} : WSState), ({} : MgrState), [], false,
       WSResult.error "Missing answer") ∧
    (validateUserAnswer
      { data := some { question_id := some (Value.vstr "q1") } }).1 = false ∧
    (validateUserQuestion
      { type := "user_question"
        timestamp := "ts"
        data := some { question_id := some (Value.vstr "q1") } }).1 = false ∧
    (askUserAsync c9Mgr "t1" "hello" "text" [] Value.vnone 60 none false
      false "q-2" 0 "ts").2.1 =
      some (createUserQuestion "q-2" "hello" "text" [] Value.vnone 60
        none "ts") := by
  have h := claim9_answer_validated_question_not {} {} {}
    { data := some { question_id := some (Value.vstr "q1") } }
    { type := "user_question"
      timestamp := "ts"
      data := some { question_id := some (Value.vstr "q1") } }
    "t1" "hello" "text" [] Value.vnone 60 0 none false false "q-2" "ts"
    { task_id := "t1", goal := "demo" }
  have h2 := (claim9_answer_validated_question_not {} {}
    { question_id := some (Value.vstr "q1") }
    { data := some { question_id := some (Value.vstr "q1") } }
    { type := "user_question"
      timestamp := "ts"
      data := some { question_id := some (Value.vstr "q1") } }
    "t1" "hello" "text" [] Value.vnone 60 0 none false false "q-2" "ts"
    { task_id := "t1", goal := "demo" }).2.1 (by decide) rfl
  have h3 := claim9_answer_validated_question_not {} c9Mgr {}
    { data := some { question_id := some (Value.vstr "q1") } }
    { type := "user_question"
      timestamp := "ts"
      data := some { question_id := some (Value.vstr "q1") } }
    "t1" "hello" "text" [] Value.vnone 60 0 none false false "q-2" "ts"
    { task_id := "t1", goal := "demo" }
  exact ⟨h.1 rfl, h2, h.2.2.2.1 rfl, h.2.2.2.2.2.1 (by decide),
    h3.2.2.2.2.2.2 (by decide) rfl rfl⟩

end AutoGLM
